import Mathlib

/-!
# Verification of the synthetic-review generation pipeline

Shallow embedding of the core of the SyntheticDataGeneratorwithQuality-Guardrails
repository: the guardrail scorers (`src/src/nodes/guardrails/`), the aggregation
node (`src/src/nodes/aggregation.py`), the routing functions
(`src/src/nodes/routing.py`), the generator node (`src/src/nodes/generator.py`)
and the graph wiring (`src/src/graph/review_graph.py`).

Modelling conventions:
* Python floats are modelled as `ℚ` (no claim here depends on binary rounding);
  the square root used by `numpy.std` is passed in as an abstract capability.
* Python `None` becomes `Option`, absent dictionary keys become `Option` fields
  read with the same defaults the code passes to `dict.get`.
* The external text-generation, embedding and sentiment backends are passed in
  as explicit capability parameters, exactly at the call sites the code uses.
* Wall-clock timing fields (`generation_time`, `evaluation_time`) are carried in
  the state but left unchanged by the embedded nodes: the elapsed times are
  external inputs that no verified property depends on.
-/

namespace SynthReview

/-! ## Data model (`src/src/config/schema.py`, `src/src/state/`) -/

/-- `ModelConfig` from `config/schema.py`. -/
structure ModelConfig where
  provider : String
  model : String
  temperature : ℚ
  maxTokens : Option ℕ
deriving DecidableEq

/-- `GuardrailConfig` from `config/schema.py`; the Python threshold dictionaries
are flattened into named fields (`diversity["vocab_overlap_threshold"]` etc.). -/
structure GuardrailConfig where
  vocabOverlapThreshold : ℚ
  semanticSimilarityThreshold : ℚ
  zScoreThreshold : ℚ
  realismScoreThreshold : ℚ
  maxRetries : ℕ
deriving DecidableEq

/-- `PersonaConfig` from `config/schema.py`. -/
structure PersonaConfig where
  name : String
  tone : String
  expectations : List String
deriving DecidableEq

/-- `DomainConfig` from `config/schema.py` (the fields the core pipeline reads). -/
structure DomainConfig where
  domain : String
  personas : List PersonaConfig
  ratingDistribution : List (ℤ × ℚ)
  models : List ModelConfig
  guardrails : GuardrailConfig
deriving DecidableEq

/-- The `quality_scores["diversity"]` record written by `check_diversity`. -/
structure DiversityScores where
  vocabOverlap : ℚ
  semanticSimilarity : ℚ
  pass : Bool
deriving DecidableEq

/-- The `quality_scores["bias"]` record written by `check_bias`; the empty-text
branch of the Python code omits the `sentiment_compound` key, hence `Option`. -/
structure BiasScores where
  sentimentRatingAligned : Bool
  sentimentCompound : Option ℚ
  zScore : ℚ
  pass : Bool
deriving DecidableEq

/-- The `quality_scores["realism"]` record written by `check_realism`. -/
structure RealismScores where
  realismScore : ℚ
  pass : Bool
deriving DecidableEq

/-- The `quality_scores` dictionary of a review: each key is absent until the
corresponding scorer has run. -/
structure QualityScores where
  diversity : Option DiversityScores
  bias : Option BiasScores
  realism : Option RealismScores
deriving DecidableEq

/-- The empty `quality_scores` dictionary `{}`. -/
def QualityScores.empty : QualityScores := ⟨none, none, none⟩

/-- The per-attempt review record (`ReviewState`): the fields the core nodes
read and write. -/
structure Review where
  rating : ℤ
  modelId : String
  reviewText : Option String
  qualityScores : QualityScores
  isValid : Bool
  rejectionReason : Option String
  generationTime : ℚ
  evaluationTime : ℚ
  retryCount : ℕ
deriving DecidableEq

/-- Per-model metrics record created lazily in `accept_review`/`reject_review`. -/
structure ModelMetrics where
  acceptedCount : ℕ
  rejectedCount : ℕ
  totalGenerationTime : ℚ
  totalEvaluationTime : ℚ
  totalRetries : ℕ
deriving DecidableEq

/-- The fresh metrics entry both routing nodes create on first write. -/
def ModelMetrics.init : ModelMetrics := ⟨0, 0, 0, 0, 0⟩

/-- `GlobalState` from `state/global_state.py` (the fields the core reads);
`metricsPerModel` is the per-model map as an association list. -/
structure GlobalState where
  acceptedReviews : List Review
  rejectedReviews : List Review
  metricsPerModel : List (String × ModelMetrics)
  currentReview : Review
  config : DomainConfig
  targetSize : ℕ
  feedback : Option String
deriving DecidableEq

/-! ## Text helpers

Python's string methods are modelled by structural functions over `List Char`
(the core library's `String.trim`/`toLower`/`split` are well-founded-recursive
and would block kernel evaluation of concrete witnesses). -/

/-- Python `str.strip()`: drop whitespace from both ends. -/
def pyTrim (cs : List Char) : List Char :=
  ((cs.dropWhile Char.isWhitespace).reverse.dropWhile Char.isWhitespace).reverse

/-- Python `str.lower()` (ASCII case folding). -/
def pyLower (s : String) : String := String.mk (s.toList.map Char.toLower)

/-- Python `str.split()` with no separator: maximal runs of non-whitespace
characters, empty pieces dropped. The accumulator carries the current word
reversed. -/
def pyWordsAux : List Char → List Char → List String
  | [], acc => if acc.isEmpty then [] else [String.mk acc.reverse]
  | c :: rest, acc =>
    if c.isWhitespace then
      if acc.isEmpty then pyWordsAux rest []
      else String.mk acc.reverse :: pyWordsAux rest []
    else pyWordsAux rest (c :: acc)

/-- Python `str.split()`. -/
def pyWords (s : String) : List String := pyWordsAux s.toList []

/-- Python substring containment `pat in s` on character lists. -/
def listContainsSublist (pat : List Char) : List Char → Bool
  | [] => pat.isEmpty
  | c :: rest => List.isPrefixOf pat (c :: rest) || listContainsSublist pat rest

/-- Python `pat in s` on strings. -/
def pyIn (pat s : String) : Bool := listContainsSublist pat.toList s.toList

/-- Python `str.split(sep)` for a single-character separator. -/
def splitOnChar (sep : Char) : List Char → List (List Char)
  | [] => [[]]
  | c :: rest =>
    match splitOnChar sep rest with
    | [] => if c == sep then [[], []] else [[c]]
    | h :: t => if c == sep then [] :: h :: t else (c :: h) :: t

/-- Python truthiness test `not review_text` on an optional string: true for
`None` and for the empty string. This is the test the three scorers use. -/
def textFalsy : Option String → Bool
  | none => true
  | some s => s.isEmpty

/-- The aggregator's emptiness test
`not review_text or (isinstance(review_text, str) and not review_text.strip())`:
true for `None`, the empty string, and whitespace-only strings. -/
def blankText : Option String → Bool
  | none => true
  | some s => s.isEmpty || (pyTrim s.toList).isEmpty

/-- Python `text.lower().split()`: lower-case, then whitespace-split. -/
def pySplitWords (s : String) : List String := pyWords (pyLower s)

/-- The word set `set(text.lower().split())` used by the diversity scorer. -/
def wordSet (s : String) : Finset String := (pySplitWords s).toFinset

/-! ## Two-decimal rendering used in rejection messages

Python renders every measured value with `f"{x:.2f}"`; on the rationals of the
model this is rounding to hundredths followed by fixed-point printing. -/

/-- Two-digit zero-padded rendering of `n % 100`-sized numbers. -/
def pad2 (n : ℕ) : String :=
  if n < 10 then "0" ++ toString n else toString n

/-- Fixed-point two-decimal rendering of a rational, modelling `f"{x:.2f}"`. -/
def formatQ2 (q : ℚ) : String :=
  let n : ℤ := round (q * 100)
  let sign := if n < 0 then "-" else ""
  sign ++ toString (n.natAbs / 100) ++ "." ++ pad2 (n.natAbs % 100)

/-- Python `str(bool)` rendering used in the bias failure message. -/
def pyBool (b : Bool) : String := if b then "True" else "False"

/-! ## Aggregation node (`src/src/nodes/aggregation.py`) -/

/-- `quality_scores.get("diversity", {}).get("pass", False)` etc. -/
def diversityPassOf (qs : QualityScores) : Bool :=
  match qs.diversity with
  | some d => d.pass
  | none => false

def biasPassOf (qs : QualityScores) : Bool :=
  match qs.bias with
  | some b => b.pass
  | none => false

def realismPassOf (qs : QualityScores) : Bool :=
  match qs.realism with
  | some r => r.pass
  | none => false

/-- The diversity failure message built in `aggregate_guardrails`. -/
def diversityFailMsg (cfg : DomainConfig) (qs : QualityScores) : String :=
  let vocabOverlap := ((qs.diversity.map DiversityScores.vocabOverlap).getD 0)
  let semanticSim := ((qs.diversity.map DiversityScores.semanticSimilarity).getD 0)
  "Diversity FAILED: vocab_overlap=" ++ formatQ2 vocabOverlap ++
    " (threshold: " ++ formatQ2 cfg.guardrails.vocabOverlapThreshold ++ "), " ++
    "semantic_sim=" ++ formatQ2 semanticSim ++
    " (threshold: " ++ formatQ2 cfg.guardrails.semanticSimilarityThreshold ++ ")"

/-- The bias failure message built in `aggregate_guardrails`. -/
def biasFailMsg (cfg : DomainConfig) (qs : QualityScores) : String :=
  let zScore := ((qs.bias.map BiasScores.zScore).getD 0)
  let aligned := ((qs.bias.map BiasScores.sentimentRatingAligned).getD false)
  let compound := ((qs.bias.bind BiasScores.sentimentCompound).getD 0)
  "Bias FAILED: sentiment_aligned=" ++ pyBool aligned ++
    ", sentiment_compound=" ++ formatQ2 compound ++
    ", z_score=" ++ formatQ2 zScore ++
    " (threshold: " ++ formatQ2 cfg.guardrails.zScoreThreshold ++ ")"

/-- The realism failure message built in `aggregate_guardrails`. -/
def realismFailMsg (cfg : DomainConfig) (qs : QualityScores) : String :=
  let realismScore := ((qs.realism.map RealismScores.realismScore).getD 0)
  "Realism FAILED: score=" ++ formatQ2 realismScore ++
    " (threshold: " ++ formatQ2 cfg.guardrails.realismScoreThreshold ++ ")"

/-- The fixed reason the aggregator writes on the empty-text short-circuit. -/
def emptyTextReason : String := "Generation error: Empty or invalid review text"

/-- `aggregate_guardrails` from `src/src/nodes/aggregation.py`: empty-text
short-circuit first, otherwise `is_valid` is the conjunction of the three pass
flags, with a "; "-joined reason listing the failing guardrails in order. -/
def aggregate_guardrails (cfg : DomainConfig) (review : Review) : Review :=
  if blankText review.reviewText then
    { review with isValid := false, rejectionReason := some emptyTextReason }
  else
    let qs := review.qualityScores
    let dPass := diversityPassOf qs
    let bPass := biasPassOf qs
    let rPass := realismPassOf qs
    let isValid := dPass && bPass && rPass
    let reasons : List String :=
      (if dPass then [] else [diversityFailMsg cfg qs]) ++
      (if bPass then [] else [biasFailMsg cfg qs]) ++
      (if rPass then [] else [realismFailMsg cfg qs])
    let rejectionReason : Option String :=
      if isValid then none else some (String.intercalate "; " reasons)
    { review with isValid := isValid, rejectionReason := rejectionReason }

/-! Spec-side views used to state the aggregation claims. -/

/-- The three guardrails, in the fixed reporting order. -/
inductive Guardrail
  | diversity
  | bias
  | realism
deriving DecidableEq

/-- The pass flag the aggregator reads for each guardrail. -/
def guardPass (qs : QualityScores) : Guardrail → Bool
  | .diversity => diversityPassOf qs
  | .bias => biasPassOf qs
  | .realism => realismPassOf qs

/-- The failing guardrails, in the fixed order diversity → bias → realism. -/
def failedGuardrails (qs : QualityScores) : List Guardrail :=
  [Guardrail.diversity, Guardrail.bias, Guardrail.realism].filter
    (fun g => !guardPass qs g)

/-- The failure message the aggregator emits for each guardrail. -/
def guardrailMsg (cfg : DomainConfig) (qs : QualityScores) : Guardrail → String
  | .diversity => diversityFailMsg cfg qs
  | .bias => biasFailMsg cfg qs
  | .realism => realismFailMsg cfg qs

/-! ## Diversity scorer (`src/src/nodes/guardrails/diversity.py`) -/

/-- The external embedding backend (`src/src/utils/embeddings.py`), consumed as
a capability: `encode` maps texts to vectors, `batchSimilarity` maps a query
vector and candidate vectors to cosine similarities. -/
structure EmbeddingCapability where
  encode : List String → List (List ℚ)
  batchSimilarity : List ℚ → List (List ℚ) → List ℚ

/-- The Jaccard similarities the diversity loop collects: one per accepted
review with truthy text, skipping pairs with an empty word-set union. -/
def jaccardOverlaps (currentWords : Finset String) (accepted : List Review) : List ℚ :=
  accepted.filterMap (fun r =>
    match r.reviewText with
    | none => none
    | some t =>
      if t.isEmpty then none
      else
        let acceptedWords := wordSet t
        if 0 < (currentWords ∪ acceptedWords).card then
          some (((currentWords ∩ acceptedWords).card : ℚ) /
                ((currentWords ∪ acceptedWords).card : ℚ))
        else none)

/-- `sum(xs) / len(xs) if xs else 0.0`. -/
def pyAverage (xs : List ℚ) : ℚ :=
  if xs.isEmpty then 0 else xs.sum / (xs.length : ℚ)

/-- `max(xs)` over the nonempty similarity batch (0 when the batch is empty,
a case the Python code guards against before calling `max`). -/
def pyMax (xs : List ℚ) : ℚ :=
  match xs.max? with
  | some m => m
  | none => 0

/-- Write the diversity record of a review. -/
def Review.withDiversity (review : Review) (d : DiversityScores) : Review :=
  { review with qualityScores := { review.qualityScores with diversity := some d } }

/-- `check_diversity` from `diversity.py`: empty/None draft short-circuits to
the maximally non-diverse sentinel; an empty accepted corpus passes trivially;
otherwise average Jaccard overlap and maximum embedding similarity are compared
strictly against their thresholds. -/
def check_diversity (emb : EmbeddingCapability) (cfg : DomainConfig)
    (accepted : List Review) (review : Review) : Review :=
  if textFalsy review.reviewText then
    review.withDiversity ⟨1, 1, false⟩
  else if accepted.length = 0 then
    review.withDiversity ⟨0, 0, true⟩
  else
    let text := review.reviewText.getD ""
    let currentWords := wordSet text
    let avgVocabOverlap := pyAverage (jaccardOverlaps currentWords accepted)
    let currentEmbedding := (emb.encode [text]).headD []
    let acceptedTexts := accepted.filterMap (fun r =>
      match r.reviewText with
      | none => none
      | some t => if t.isEmpty then none else some t)
    let maxSemanticSimilarity :=
      if !acceptedTexts.isEmpty then
        pyMax (emb.batchSimilarity currentEmbedding (emb.encode acceptedTexts))
      else 0
    let passes :=
      avgVocabOverlap < cfg.guardrails.vocabOverlapThreshold &&
      maxSemanticSimilarity < cfg.guardrails.semanticSimilarityThreshold
    review.withDiversity ⟨avgVocabOverlap, maxSemanticSimilarity, passes⟩

/-! ## Bias scorer (`src/src/nodes/guardrails/bias.py`) -/

/-- The external sentiment backend (`src/src/utils/sentiment.py`), consumed as
a capability returning the compound score of a text; `sqrt` is the square root
`numpy.std` evaluates (abstract here since it is irrational in general). -/
structure SentimentCapability where
  compound : String → ℚ
  sqrt : ℚ → ℚ

/-- Write the bias record of a review. -/
def Review.withBias (review : Review) (b : BiasScores) : Review :=
  { review with qualityScores := { review.qualityScores with bias := some b } }

/-- The sentiment-rating alignment test of `check_bias`: high ratings need
clearly positive compound, low ratings clearly negative, rating 3 near-neutral. -/
def sentimentAligned (rating : ℤ) (compoundScore : ℚ) : Bool :=
  if 4 ≤ rating then decide ((0.1 : ℚ) ≤ compoundScore)
  else if rating ≤ 2 then decide (compoundScore ≤ (-0.1 : ℚ))
  else decide (|compoundScore| < (0.3 : ℚ))

/-- The compound scores of the accepted reviews with truthy text. -/
def acceptedSentiments (cap : SentimentCapability) (accepted : List Review) : List ℚ :=
  accepted.filterMap (fun r =>
    match r.reviewText with
    | none => none
    | some t => if t.isEmpty then none else some (cap.compound t))

/-- The z-score computation of `check_bias`: 0 with no comparison data, else
`|compound − mean| / std` with `numpy.std` (population), std fixed to 1 for a
singleton corpus, and 0 when the std is not positive. -/
def biasZScore (cap : SentimentCapability) (accepted : List Review)
    (compoundScore : ℚ) : ℚ :=
  if 0 < accepted.length then
    let sentiments := acceptedSentiments cap accepted
    if !sentiments.isEmpty then
      let mean := sentiments.sum / (sentiments.length : ℚ)
      let std :=
        if 1 < sentiments.length then
          cap.sqrt ((sentiments.map (fun x => (x - mean) ^ 2)).sum /
                    (sentiments.length : ℚ))
        else 1
      if 0 < std then |(compoundScore - mean) / std| else 0
    else 0
  else 0

/-- `check_bias` from `bias.py`: empty/None draft short-circuits to fail;
otherwise pass iff the sentiment aligns with the rating and the z-score is
strictly below the threshold or exactly 0. -/
def check_bias (cap : SentimentCapability) (cfg : DomainConfig)
    (accepted : List Review) (review : Review) : Review :=
  if textFalsy review.reviewText then
    review.withBias ⟨false, none, 0, false⟩
  else
    let text := review.reviewText.getD ""
    let compoundScore := cap.compound text
    let aligned := sentimentAligned review.rating compoundScore
    let zScore := biasZScore cap accepted compoundScore
    let passes := aligned &&
      (decide (zScore < cfg.guardrails.zScoreThreshold) || decide (zScore = 0))
    review.withBias ⟨aligned, some compoundScore, zScore, passes⟩

/-! ## Realism scorer (`src/src/nodes/guardrails/realism.py`) -/

/-- The judge-model preference loop of `check_realism` (lines 36-43): for each
model in configuration order, break on a `groq` provider or on an `openai`
provider whose model name contains `gpt`. -/
def selectValidationModel : List ModelConfig → Option ModelConfig
  | [] => none
  | m :: rest =>
    if m.provider == "groq" then some m
    else if m.provider == "openai" && pyIn "gpt" (pyLower m.model) then some m
    else selectValidationModel rest

/-- The judge-model choice including the fallback to the first configured
model (`config.models[0]`). -/
def chooseJudgeModel (models : List ModelConfig) : Option ModelConfig :=
  match selectValidationModel models with
  | some m => some m
  | none => models.head?

/-- The predicate a model must satisfy for the selection loop to break on it. -/
def judgePreferred (m : ModelConfig) : Bool :=
  m.provider == "groq" ||
    (m.provider == "openai" && pyIn "gpt" (pyLower m.model))

/-- Match of the regex `Score:\s*([0-9.]+)` anchored at the head of `cs`:
the literal `Score:`, maximal whitespace, then a nonempty run of digits and
dots (the captured group). Digits/dots and whitespace are disjoint character
classes, so the greedy match is the only one. -/
def matchScoreAt (cs : List Char) : Option (List Char) :=
  if cs.take 6 = "Score:".toList then
    let run := ((cs.drop 6).dropWhile Char.isWhitespace).takeWhile
      (fun c => c.isDigit || c == '.')
    if run.isEmpty then none else some run
  else none

/-- `re.search` of `Score:\s*([0-9.]+)`: the captured group of the leftmost
match. -/
def searchScorePattern : List Char → Option (List Char)
  | [] => none
  | c :: rest =>
    match matchScoreAt (c :: rest) with
    | some g => some g
    | none => searchScorePattern rest

/-- Match of the regex `([0-9]\.[0-9]+)` anchored at the head: a digit, a dot,
then a nonempty maximal run of digits. -/
def matchDecimalAt : List Char → Option (List Char)
  | c :: d :: rest =>
    if c.isDigit && d == '.' then
      let run := rest.takeWhile Char.isDigit
      if run.isEmpty then none else some (c :: '.' :: run)
    else none
  | _ => none

/-- `re.search` of `([0-9]\.[0-9]+)`: the captured group of the leftmost
match. -/
def searchDecimalPattern : List Char → Option (List Char)
  | [] => none
  | c :: rest =>
    match matchDecimalAt (c :: rest) with
    | some g => some g
    | none => searchDecimalPattern rest

/-- `re.search` of `([0-9])`: the first digit character. -/
def searchDigitPattern (cs : List Char) : Option (List Char) :=
  (cs.find? Char.isDigit).map (fun c => [c])

/-- The numeric value of a digit run. -/
def digitsVal (cs : List Char) : ℚ :=
  ((cs.foldl (fun acc c => 10 * acc + (c.toNat - 48)) 0 : ℕ) : ℚ)

/-- Python `float(s)` on the strings the patterns can capture (digits and at
most one dot, at least one digit); `none` models the `ValueError` Python
raises on inputs like `"."` or `"1.2.3"`. -/
def pythonFloat (s : String) : Option ℚ :=
  match splitOnChar '.' s.toList with
  | [a] =>
    if !a.isEmpty && a.all Char.isDigit then some (digitsVal a) else none
  | [a, b] =>
    if (!a.isEmpty || !b.isEmpty) && a.all Char.isDigit && b.all Char.isDigit then
      some (digitsVal a + digitsVal b / (10 : ℚ) ^ b.length)
    else none
  | _ => none

/-- The normalization in `parse_realism_score`: scores above 1 are divided by
10 when at most 10 and clamped to 1 otherwise, then clamped into `[0, 1]`. -/
def normalizeScore (score : ℚ) : ℚ :=
  let s := if 1 < score then (if score ≤ 10 then score / 10 else 1) else score
  max 0 (min 1 s)

/-- `parse_realism_score` from `realism.py`: try the three patterns in order,
convert the first captured group with `float` (a `ValueError` there propagates
to the caller, modelled as `Except.error`), and return the default 0.5 when no
pattern matches at all. -/
def parse_realism_score (response : String) : Except Unit ℚ :=
  match searchScorePattern response.toList with
  | some g =>
    match pythonFloat (String.mk g) with
    | some v => .ok (normalizeScore v)
    | none => .error ()
  | none =>
    match searchDecimalPattern response.toList with
    | some g =>
      match pythonFloat (String.mk g) with
      | some v => .ok (normalizeScore v)
      | none => .error ()
    | none =>
      match searchDigitPattern response.toList with
      | some g =>
        match pythonFloat (String.mk g) with
        | some v => .ok (normalizeScore v)
        | none => .error ()
      | none => .ok (1 / 2)

/-- Python `str.isupper()`: at least one cased character and no lower-case
character (modelled over ASCII letters). -/
def pyIsUpper (s : String) : Bool :=
  s.toList.any Char.isAlpha && s.toList.all (fun c => !c.isLower)

/-- The fixed domain-neutral keyword list of `heuristic_realism_score`. -/
def domainTerms : List String :=
  ["feature", "use", "tool", "product", "service", "app", "software", "platform"]

/-- `heuristic_realism_score` from `realism.py`: base 0.5, adjusted by word
count, keyword presence, and balanced-language checks, clamped to `[0, 1]`. -/
def heuristic_realism_score (reviewText : String) (domain : String) : ℚ :=
  if reviewText.isEmpty || (pyTrim reviewText.toList).isEmpty then 0
  else
    let wordCount := (pyWords reviewText).length
    let score : ℚ := 1 / 2
    let score := score +
      (if 10 ≤ wordCount ∧ wordCount ≤ 200 then (0.2 : ℚ)
       else if wordCount < 5 then (-0.2 : ℚ) else 0)
    let reviewLower := pyLower reviewText
    let _domainLower := pyLower domain
    let score := score +
      (if domainTerms.any (fun t => pyIn t reviewLower) then (0.2 : ℚ) else 0)
    let exclamations := (reviewText.toList.filter (fun c => c == '!')).length
    let score := score +
      (if !pyIsUpper reviewText && exclamations < 5 then (0.1 : ℚ) else 0)
    max 0 (min 1 score)

/-- The outcome of the judge call in `check_realism`: the provider raised, or
it returned `None` or a string. -/
inductive JudgeOutcome
  | failure
  | response (r : Option String)
deriving DecidableEq

/-- Write the realism record of a review. -/
def Review.withRealism (review : Review) (r : RealismScores) : Review :=
  { review with qualityScores := { review.qualityScores with realism := some r } }

/-- `check_realism` from `realism.py`: empty/None draft short-circuits to fail;
a raised judge call or a `None`/blank response falls back to the heuristic; a
non-blank response is parsed, with a `float` error also falling back to the
heuristic via the surrounding `except`; pass iff the score meets the
threshold. -/
def check_realism (outcome : JudgeOutcome) (cfg : DomainConfig)
    (review : Review) : Review :=
  if textFalsy review.reviewText then
    review.withRealism ⟨0, false⟩
  else
    let text := review.reviewText.getD ""
    let realismScore : ℚ :=
      match outcome with
      | .failure => heuristic_realism_score text cfg.domain
      | .response none => heuristic_realism_score text cfg.domain
      | .response (some resp) =>
        if (pyTrim resp.toList).isEmpty then heuristic_realism_score text cfg.domain
        else
          match parse_realism_score resp with
          | .ok v => v
          | .error _ => heuristic_realism_score text cfg.domain
    let passes := decide (cfg.guardrails.realismScoreThreshold ≤ realismScore)
    review.withRealism ⟨realismScore, passes⟩

/-! ## Generator node (`src/src/nodes/generator.py`) -/

/-- The outcome of the drafting provider call: an exception, or a returned
response that may be `None` (`returned none`) or a string. The non-string
response type the Python code also guards against cannot arise in the typed
model and is folded into `returned none` (both store `review_text = None`). -/
inductive ProviderResult
  | raised (msg : String)
  | returned (text : Option String)
deriving DecidableEq

/-- `generate_review` from `generator.py` (the attempt-level outcome handling):
on any failure mode the draft is cleared, the attempt marked invalid with a
descriptive generation-error reason; on success the stripped text is stored. -/
def generate_review (result : ProviderResult) (review : Review) : Review :=
  match result with
  | .raised msg =>
    { review with reviewText := none, isValid := false,
                  rejectionReason := some ("Generation error: " ++ msg) }
  | .returned none =>
    { review with reviewText := none, isValid := false,
                  rejectionReason := some "Generation error: None response from model" }
  | .returned (some t) =>
    if (pyTrim t.toList).isEmpty then
      { review with reviewText := none, isValid := false,
                    rejectionReason :=
                      some "Generation error: Empty or whitespace-only response from model" }
    else
      { review with reviewText := some (String.mk (pyTrim t.toList)) }

/-! ## Routing (`src/src/nodes/routing.py`) -/

/-- Look up a model's metrics entry in the association-list map. -/
def lookupMetrics (m : List (String × ModelMetrics)) (modelId : String) :
    Option ModelMetrics :=
  (m.find? (fun p => p.1 == modelId)).map Prod.snd

/-- Update (or lazily create) a model's metrics entry. -/
def updateMetrics (m : List (String × ModelMetrics)) (modelId : String)
    (f : ModelMetrics → ModelMetrics) : List (String × ModelMetrics) :=
  match lookupMetrics m modelId with
  | none => m ++ [(modelId, f ModelMetrics.init)]
  | some _ => m.map (fun p => if p.1 == modelId then (p.1, f p.2) else p)

/-- `accept_review`: append the current review to the accepted list and
accumulate its model's metrics. -/
def accept_review (st : GlobalState) : GlobalState :=
  let review := st.currentReview
  { st with
    acceptedReviews := st.acceptedReviews ++ [review]
    metricsPerModel := updateMetrics st.metricsPerModel review.modelId
      (fun m => { m with
        acceptedCount := m.acceptedCount + 1
        totalGenerationTime := m.totalGenerationTime + review.generationTime
        totalEvaluationTime := m.totalEvaluationTime + review.evaluationTime
        totalRetries := m.totalRetries + review.retryCount }) }

/-- `reject_review`: append the current review to the rejected list and
accumulate its model's metrics. -/
def reject_review (st : GlobalState) : GlobalState :=
  let review := st.currentReview
  { st with
    rejectedReviews := st.rejectedReviews ++ [review]
    metricsPerModel := updateMetrics st.metricsPerModel review.modelId
      (fun m => { m with
        rejectedCount := m.rejectedCount + 1
        totalGenerationTime := m.totalGenerationTime + review.generationTime
        totalEvaluationTime := m.totalEvaluationTime + review.evaluationTime
        totalRetries := m.totalRetries + review.retryCount }) }

/-- `prepare_regeneration`: increment the retry count, set feedback from the
rejection reason, and reset quality scores, validity and reason. -/
def prepare_regeneration (st : GlobalState) : GlobalState :=
  let review := st.currentReview
  let review := { review with retryCount := review.retryCount + 1 }
  let rejectionReason := review.rejectionReason.getD "Quality check failed"
  let feedback := "Previous attempt failed: " ++ rejectionReason ++
    ". Please generate a different review."
  let review := { review with
    qualityScores := QualityScores.empty, isValid := false, rejectionReason := none }
  { st with currentReview := review, feedback := some feedback }

/-- `should_continue`: `true` models the `"continue"` return value, `false`
models `"finish"`. The safety-valve branch prints a warning to stderr and
returns `"finish"` normally (no exception is raised). -/
def should_continue (st : GlobalState) : Bool :=
  if st.targetSize ≤ st.acceptedReviews.length then false
  else if st.targetSize * 10 <
      st.acceptedReviews.length + st.rejectedReviews.length then false
  else true

/-- `should_retry`: `true` models `"retry"`, `false` models `"reject"`. -/
def should_retry (maxRetries currentRetries : ℕ) : Bool :=
  currentRetries < maxRetries

/-! ## Graph wiring (`src/src/graph/review_graph.py`) -/

/-- The routing decision returned by `route_after_aggregation`. -/
inductive RouteDecision
  | accept
  | retry
  | reject
deriving DecidableEq

/-- `route_after_aggregation`: accept when valid, otherwise retry or reject by
`should_retry`. -/
def route_after_aggregation (st : GlobalState) : RouteDecision :=
  let review := st.currentReview
  if review.isValid then .accept
  else if should_retry st.config.guardrails.maxRetries review.retryCount then .retry
  else .reject

/-- The nodes of the compiled LangGraph, plus the `END` sentinel. -/
inductive Node
  | sample
  | generate
  | diversityCheck
  | biasCheck
  | realismCheck
  | aggregate
  | accept
  | reject
  | prepareRetry
  | terminal
deriving DecidableEq

/-- The successor function of `create_review_graph`: the plain `add_edge`
entries are unconditional, the two `add_conditional_edges` entries dispatch on
`route_after_aggregation` and `check_continue` (= `should_continue`). -/
def graphSuccessor (st : GlobalState) : Node → Option Node
  | .sample => some .generate
  | .generate => some .diversityCheck
  | .diversityCheck => some .biasCheck
  | .biasCheck => some .realismCheck
  | .realismCheck => some .aggregate
  | .aggregate =>
    some (match route_after_aggregation st with
      | .accept => .accept
      | .retry => .prepareRetry
      | .reject => .reject)
  | .accept => some (if should_continue st then .sample else .terminal)
  | .reject => some (if should_continue st then .sample else .terminal)
  | .prepareRetry => some .generate
  | .terminal => none

/-- The scorer-and-aggregation stage of one draft, composed in the graph's edge
order `diversity_check → bias_check → realism_check → aggregate`. -/
def scoringPipeline (emb : EmbeddingCapability) (sent : SentimentCapability)
    (judge : JudgeOutcome) (cfg : DomainConfig) (accepted : List Review)
    (review : Review) : Review :=
  aggregate_guardrails cfg
    (check_realism judge cfg
      (check_bias sent cfg accepted
        (check_diversity emb cfg accepted review)))

/-! ## Control loops

The per-attempt retry loop and the run-level continuation loop, assembled from
the routing functions exactly as the graph edges compose them. -/

/-- One attempt's aggregate→route→retry cycle, driven by an oracle `valid i`
giving the aggregated validity of the attempt's `i`-th draft (the draft made
with `retry_count = i`). Returns (accepted?, final retry count, drafts made).
The fuel argument only bounds the recursion; `attemptRun` supplies enough for
the routing logic to decide every draft. -/
def attemptRunAux (maxRetries : ℕ) (valid : ℕ → Bool) :
    ℕ → ℕ → Bool × ℕ × ℕ
  | 0, rc => (false, rc, 1)
  | fuel + 1, rc =>
    if valid rc then (true, rc, 1)
    else if should_retry maxRetries rc then
      let r := attemptRunAux maxRetries valid fuel (rc + 1)
      (r.1, r.2.1, r.2.2 + 1)
    else (false, rc, 1)

/-- A whole attempt: start at `retry_count = 0` with fuel `maxRetries + 1`,
which covers every draft the routing logic can request. -/
def attemptRun (maxRetries : ℕ) (valid : ℕ → Bool) : Bool × ℕ × ℕ :=
  attemptRunAux maxRetries valid (maxRetries + 1) 0

/-- One finalized attempt of the run-level loop: `outcome n` tells whether
attempt number `n` is accepted, `mkR n` is the finalized review it produced;
the attempt goes through `accept_review` or `reject_review` accordingly. -/
def finalizeAttempt (outcome : ℕ → Bool) (mkR : ℕ → Review)
    (st : GlobalState) : GlobalState :=
  if outcome (st.acceptedReviews.length + st.rejectedReviews.length) then
    accept_review
      { st with currentReview := mkR (st.acceptedReviews.length + st.rejectedReviews.length) }
  else
    reject_review
      { st with currentReview := mkR (st.acceptedReviews.length + st.rejectedReviews.length) }

/-- The run-level loop: while `should_continue`, finalize one more attempt. -/
def runLoop (outcome : ℕ → Bool) (mkR : ℕ → Review) :
    ℕ → GlobalState → GlobalState
  | 0, st => st
  | fuel + 1, st =>
    if should_continue st then
      runLoop outcome mkR fuel (finalizeAttempt outcome mkR st)
    else st

/-! ## Concrete fixtures used by witnesses and counterexamples -/

/-- The default guardrail thresholds of `config/schema.py`. -/
def exGuardrails : GuardrailConfig :=
  { vocabOverlapThreshold := 0.3
    semanticSimilarityThreshold := 0.85
    zScoreThreshold := 2
    realismScoreThreshold := 0.7
    maxRetries := 2 }

/-- A concrete configuration mirroring the test fixtures of the repository. -/
def exCfg : DomainConfig :=
  { domain := "SaaS Project Management Tool"
    personas := [⟨"Test", "neutral", []⟩]
    ratingDistribution := [(5, 1)]
    models := [⟨"openai", "gpt-4o-mini", 0.7, none⟩]
    guardrails := exGuardrails }

/-- A fresh attempt with the given draft text. -/
def exReview (t : Option String) : Review :=
  { rating := 5
    modelId := "openai:gpt-4o-mini"
    reviewText := t
    qualityScores := QualityScores.empty
    isValid := false
    rejectionReason := none
    generationTime := 0
    evaluationTime := 0
    retryCount := 0 }

/-- A trivial embedding capability used only to instantiate witnesses. -/
def exEmb : EmbeddingCapability :=
  { encode := fun ts => ts.map (fun _ => [0])
    batchSimilarity := fun _ cands => cands.map (fun _ => 0) }

/-- A trivial sentiment capability used only to instantiate witnesses. -/
def exSent : SentimentCapability :=
  { compound := fun _ => 0.5
    sqrt := fun _ => 0 }

/-- A concrete draft text: 13 words, contains domain keywords, not shouted. -/
def exDraft : String :=
  "I use this product every day and it works well for my team"

/-- A non-empty judge response containing no digit and no `Score:` marker. -/
def exUnparseable : String := "The review seems plausible"

/-- A review whose quality records are all present with the given pass flags. -/
def exScoredReview (d b r : Bool) : Review :=
  { exReview (some exDraft) with
    qualityScores :=
      { diversity := some ⟨0.1, 0.2, d⟩
        bias := some ⟨b, some 0.4, 0.5, b⟩
        realism := some ⟨0.8, r⟩ } }

/-! ## C1: aggregator validity -/

/-- C1: for every attempt reaching the aggregator, `is_valid` is true iff the
draft text is non-blank and all three guardrail pass flags are true; a blank
draft is immediately invalid with the fixed empty-text reason, whatever the
guardrail records contain. -/
theorem C1_aggregator_validity (cfg : DomainConfig) (review : Review) :
    ((aggregate_guardrails cfg review).isValid = true ↔
      (blankText review.reviewText = false ∧
       diversityPassOf review.qualityScores = true ∧
       biasPassOf review.qualityScores = true ∧
       realismPassOf review.qualityScores = true)) ∧
    (blankText review.reviewText = true →
      (aggregate_guardrails cfg review).isValid = false ∧
      (aggregate_guardrails cfg review).rejectionReason = some emptyTextReason) := by
  constructor
  · cases hb : blankText review.reviewText
    · simp [aggregate_guardrails, hb, Bool.and_eq_true, and_assoc]
    · simp [aggregate_guardrails, hb]
  · intro hb
    simp [aggregate_guardrails, hb]

/-- Witness for C1 at a concrete blank-draft attempt. -/
theorem C1_witness :
    (aggregate_guardrails exCfg (exReview none)).isValid = false ∧
    (aggregate_guardrails exCfg (exReview none)).rejectionReason =
      some emptyTextReason :=
  (C1_aggregator_validity exCfg (exReview none)).2 rfl

/-! ## C9: rejection reasons -/

/-- C9: after aggregation the rejection reason is absent iff the attempt is
valid; for an invalid non-blank attempt the reason is the "; "-join of one
message per failing guardrail, in the fixed order diversity → bias → realism,
and a guardrail appears in that list exactly when it failed. -/
theorem C9_rejection_reason (cfg : DomainConfig) (review : Review) :
    ((aggregate_guardrails cfg review).rejectionReason = none ↔
      (aggregate_guardrails cfg review).isValid = true) ∧
    (blankText review.reviewText = false →
      (aggregate_guardrails cfg review).isValid = false →
      (aggregate_guardrails cfg review).rejectionReason =
        some (String.intercalate "; "
          ((failedGuardrails review.qualityScores).map
            (guardrailMsg cfg review.qualityScores))) ∧
      (∀ g : Guardrail, g ∈ failedGuardrails review.qualityScores ↔
        guardPass review.qualityScores g = false)) := by
  constructor
  · cases hb : blankText review.reviewText
    · cases hd : diversityPassOf review.qualityScores <;>
        cases hbi : biasPassOf review.qualityScores <;>
          cases hr : realismPassOf review.qualityScores <;>
            simp [aggregate_guardrails, hb, hd, hbi, hr]
    · simp [aggregate_guardrails, hb]
  · intro hb hinv
    have hmem : ∀ g : Guardrail, g ∈ failedGuardrails review.qualityScores ↔
        guardPass review.qualityScores g = false := by
      intro g
      cases g <;> simp [failedGuardrails, guardPass]
    refine ⟨?_, hmem⟩
    cases hd : diversityPassOf review.qualityScores <;>
      cases hbi : biasPassOf review.qualityScores <;>
        cases hr : realismPassOf review.qualityScores <;>
          simp_all [aggregate_guardrails, hb, hd, hbi, hr, failedGuardrails,
            guardrailMsg, guardPass]

/-- Witness for C9 at a concrete attempt failing exactly the bias guardrail. -/
theorem C9_witness :
    (aggregate_guardrails exCfg (exScoredReview true false true)).rejectionReason =
      some (String.intercalate "; "
        ((failedGuardrails (exScoredReview true false true).qualityScores).map
          (guardrailMsg exCfg (exScoredReview true false true).qualityScores))) ∧
    (∀ g : Guardrail,
      g ∈ failedGuardrails (exScoredReview true false true).qualityScores ↔
        guardPass (exScoredReview true false true).qualityScores g = false) :=
  (C9_rejection_reason exCfg (exScoredReview true false true)).2 (by decide)
    (by decide)

/-! ## C10: diversity empty-draft short-circuit -/

/-- C10: when the draft text is `None` or empty, `check_diversity` records the
maximally non-diverse failing sentinel, for every accepted corpus — in
particular the empty one, so the short-circuit takes precedence over the
empty-corpus bootstrap pass. -/
theorem C10_diversity_empty_draft (emb : EmbeddingCapability)
    (cfg : DomainConfig) (accepted : List Review) (review : Review)
    (h : textFalsy review.reviewText = true) :
    (check_diversity emb cfg accepted review).qualityScores.diversity =
      some ⟨1, 1, false⟩ := by
  simp [check_diversity, h, Review.withDiversity]

/-- Witness for C10: a `None` draft against the empty corpus. -/
theorem C10_witness :
    (check_diversity exEmb exCfg [] (exReview none)).qualityScores.diversity =
      some ⟨1, 1, false⟩ :=
  C10_diversity_empty_draft exEmb exCfg [] (exReview none) rfl

/-! ## C4: bootstrap behaviour on an empty accepted corpus -/

/-- C4: with an empty accepted corpus and a non-empty draft, the diversity
scorer passes with overlap 0 and similarity 0, and the bias scorer records
z-score 0, so the z-score half of its pass condition holds — for every
sentiment capability, i.e. regardless of the draft's sentiment. -/
theorem C4_empty_corpus_bootstrap (emb : EmbeddingCapability)
    (sent : SentimentCapability) (cfg : DomainConfig) (review : Review)
    (h : textFalsy review.reviewText = false) :
    (check_diversity emb cfg [] review).qualityScores.diversity =
      some ⟨0, 0, true⟩ ∧
    ∃ b : BiasScores,
      (check_bias sent cfg [] review).qualityScores.bias = some b ∧
      b.zScore = 0 ∧
      (b.zScore < cfg.guardrails.zScoreThreshold ∨ b.zScore = 0) := by
  refine ⟨?_, ?_⟩
  · simp [check_diversity, h, Review.withDiversity]
  · set c := sent.compound (review.reviewText.getD "") with hc
    have hz : biasZScore sent [] c = 0 := by
      simp [biasZScore]
    refine ⟨⟨sentimentAligned review.rating c, some c, biasZScore sent [] c,
      sentimentAligned review.rating c &&
        (decide (biasZScore sent [] c < cfg.guardrails.zScoreThreshold) ||
         decide (biasZScore sent [] c = 0))⟩, ?_, hz, Or.inr hz⟩
    simp [check_bias, h, Review.withBias, hc]

/-- Witness for C4 at a concrete non-empty draft. -/
theorem C4_witness :
    (check_diversity exEmb exCfg [] (exReview (some exDraft))).qualityScores.diversity =
      some ⟨0, 0, true⟩ ∧
    ∃ b : BiasScores,
      (check_bias exSent exCfg [] (exReview (some exDraft))).qualityScores.bias =
        some b ∧
      b.zScore = 0 ∧
      (b.zScore < exCfg.guardrails.zScoreThreshold ∨ b.zScore = 0) :=
  C4_empty_corpus_bootstrap exEmb exSent exCfg (exReview (some exDraft)) rfl

/-! ## C5: bias pass condition -/

/-- The code's alignment test agrees with the specification's three-case
conjunction for every integer rating. -/
theorem sentimentAligned_iff (rating : ℤ) (c : ℚ) :
    sentimentAligned rating c = true ↔
      ((4 ≤ rating → (0.1 : ℚ) ≤ c) ∧
       (rating ≤ 2 → c ≤ -(0.1 : ℚ)) ∧
       (rating = 3 → |c| < (0.3 : ℚ))) := by
  unfold sentimentAligned
  split_ifs with h1 h2
  · simp only [decide_eq_true_eq]
    constructor
    · intro hc
      exact ⟨fun _ => hc, fun h => absurd h (by omega), fun h => absurd h (by omega)⟩
    · intro ⟨a, _, _⟩
      exact a h1
  · simp only [decide_eq_true_eq]
    constructor
    · intro hc
      exact ⟨fun h => absurd h (by omega), fun _ => hc, fun h => absurd h (by omega)⟩
    · intro ⟨_, a, _⟩
      exact a h2
  · have h3 : rating = 3 := by omega
    simp only [decide_eq_true_eq]
    constructor
    · intro hc
      exact ⟨fun h => absurd h (by omega), fun h => absurd h (by omega), fun _ => hc⟩
    · intro ⟨_, _, a⟩
      exact a h3

/-- C5: for every non-empty draft the bias scorer passes iff the sentiment-
rating alignment holds (as the three-case rule on the compound score) and the
recorded z-score is strictly below the threshold or exactly 0; in particular a
rating-1 draft with clearly positive sentiment fails regardless of z-score. -/
theorem C5_bias_pass_condition (sent : SentimentCapability) (cfg : DomainConfig)
    (accepted : List Review) (review : Review)
    (h : textFalsy review.reviewText = false) :
    (∃ b : BiasScores,
      (check_bias sent cfg accepted review).qualityScores.bias = some b ∧
      (b.pass = true ↔
        ((4 ≤ review.rating → (0.1 : ℚ) ≤ sent.compound (review.reviewText.getD "")) ∧
         (review.rating ≤ 2 → sent.compound (review.reviewText.getD "") ≤ -(0.1 : ℚ)) ∧
         (review.rating = 3 → |sent.compound (review.reviewText.getD "")| < (0.3 : ℚ))) ∧
        (b.zScore < cfg.guardrails.zScoreThreshold ∨ b.zScore = 0))) ∧
    (review.rating = 1 → (0.1 : ℚ) ≤ sent.compound (review.reviewText.getD "") →
      biasPassOf (check_bias sent cfg accepted review).qualityScores = false) := by
  constructor
  · set c := sent.compound (review.reviewText.getD "") with hc
    refine ⟨⟨sentimentAligned review.rating c, some c, biasZScore sent accepted c,
      sentimentAligned review.rating c &&
        (decide (biasZScore sent accepted c < cfg.guardrails.zScoreThreshold) ||
         decide (biasZScore sent accepted c = 0))⟩, ?_, ?_⟩
    · simp [check_bias, h, Review.withBias, hc]
    · simp only [Bool.and_eq_true, Bool.or_eq_true, decide_eq_true_eq,
        sentimentAligned_iff]
  · intro h1 hc
    have halign : sentimentAligned review.rating
        (sent.compound (review.reviewText.getD "")) = false := by
      rw [sentimentAligned, if_neg (by omega), if_pos (by omega)]
      simp only [decide_eq_false_iff_not, not_le]
      linarith
    simp [check_bias, h, Review.withBias, biasPassOf, halign]

/-- Witness for C5: a rating-1 attempt whose sentiment capability reports a
clearly positive compound score fails the bias guardrail. -/
theorem C5_witness :
    biasPassOf (check_bias exSent exCfg []
      { exReview (some exDraft) with rating := 1 }).qualityScores = false :=
  (C5_bias_pass_condition exSent exCfg []
    { exReview (some exDraft) with rating := 1 } rfl).2 rfl (by norm_num [exSent])

/-! ## C2: retry bound -/

/-- The `should_retry` decision unfolds to the strict retry-count comparison. -/
theorem should_retry_iff (m rc : ℕ) : should_retry m rc = true ↔ rc < m := by
  simp [should_retry]

/-- The retry count the attempt loop reports never exceeds `maxRetries`,
provided it does not start above it. -/
theorem attemptRunAux_rc_le (maxRetries : ℕ) (valid : ℕ → Bool) :
    ∀ fuel rc, rc ≤ maxRetries →
      (attemptRunAux maxRetries valid fuel rc).2.1 ≤ maxRetries := by
  intro fuel
  induction fuel with
  | zero => intro rc hrc; exact hrc
  | succ fuel ih =>
    intro rc hrc
    unfold attemptRunAux
    cases hv : valid rc
    · simp only [hv, Bool.false_eq_true, if_false]
      by_cases hlt : rc < maxRetries
      · rw [if_pos ((should_retry_iff maxRetries rc).mpr hlt)]
        exact ih (rc + 1) hlt
      · rw [if_neg (fun h => hlt ((should_retry_iff maxRetries rc).mp h))]
        exact hrc
    · simp only [hv, if_true]
      exact hrc

/-- On a run of all-failing drafts the loop rejects with retry count
`maxRetries`, having made one draft per remaining retry plus the final one. -/
theorem attemptRunAux_all_fail (maxRetries : ℕ) (valid : ℕ → Bool)
    (hv : ∀ i, valid i = false) :
    ∀ fuel rc, rc ≤ maxRetries → maxRetries + 1 ≤ rc + fuel →
      attemptRunAux maxRetries valid fuel rc =
        (false, maxRetries, maxRetries + 1 - rc) := by
  intro fuel
  induction fuel with
  | zero => intro rc h1 h2; omega
  | succ fuel ih =>
    intro rc h1 h2
    unfold attemptRunAux
    rw [hv rc]
    simp only [Bool.false_eq_true, if_false]
    by_cases hlt : rc < maxRetries
    · rw [if_pos ((should_retry_iff maxRetries rc).mpr hlt)]
      rw [ih (rc + 1) hlt (by omega)]
      have harith : maxRetries + 1 - (rc + 1) + 1 = maxRetries + 1 - rc := by
        omega
      simp only [harith]
    · rw [if_neg (fun h => hlt ((should_retry_iff maxRetries rc).mp h))]
      have heq : rc = maxRetries := by omega
      rw [heq]
      have harith : maxRetries + 1 - maxRetries = 1 := by omega
      rw [harith]

/-- C2: an attempt's final retry count never exceeds `max_retries`, and when
every draft fails the guardrails the attempt is rejected (not accepted) with
retry count exactly `max_retries` after `max_retries + 1` drafts. -/
theorem C2_retry_loop (maxRetries : ℕ) (valid : ℕ → Bool) :
    (attemptRun maxRetries valid).2.1 ≤ maxRetries ∧
    ((∀ i, valid i = false) →
      attemptRun maxRetries valid = (false, maxRetries, maxRetries + 1)) := by
  constructor
  · exact attemptRunAux_rc_le maxRetries valid (maxRetries + 1) 0 (Nat.zero_le _)
  · intro hv
    unfold attemptRun
    rw [attemptRunAux_all_fail maxRetries valid hv (maxRetries + 1) 0
      (Nat.zero_le _) (by omega)]
    rfl

/-- Witness for C2 at `max_retries = 2` with all-failing drafts: rejected
after exactly 2 retries and 3 drafts. -/
theorem C2_witness :
    attemptRun 2 (fun _ => false) = (false, 2, 3) ∧
    (attemptRun 2 (fun _ => false)).2.1 ≤ 2 :=
  ⟨(C2_retry_loop 2 (fun _ => false)).2 (fun _ => rfl),
   (C2_retry_loop 2 (fun _ => false)).1⟩

/-! ## C3: continuation check and termination -/

/-- The total number of finalized attempts in a state. -/
def totalAttempts (st : GlobalState) : ℕ :=
  st.acceptedReviews.length + st.rejectedReviews.length

/-- Accepting finalizes exactly one more attempt. -/
theorem totalAttempts_accept_review (st : GlobalState) :
    totalAttempts (accept_review st) = totalAttempts st + 1 := by
  simp only [accept_review, totalAttempts, List.length_append, List.length_cons,
    List.length_nil]
  omega

/-- Rejecting finalizes exactly one more attempt. -/
theorem totalAttempts_reject_review (st : GlobalState) :
    totalAttempts (reject_review st) = totalAttempts st + 1 := by
  simp only [reject_review, totalAttempts, List.length_append, List.length_cons,
    List.length_nil]
  omega

/-- One step of the run loop finalizes exactly one more attempt, whatever the
routing outcome. -/
theorem totalAttempts_finalizeAttempt (outcome : ℕ → Bool) (mkR : ℕ → Review)
    (st : GlobalState) :
    totalAttempts (finalizeAttempt outcome mkR st) = totalAttempts st + 1 := by
  unfold finalizeAttempt
  split_ifs
  · rw [totalAttempts_accept_review]
    rfl
  · rw [totalAttempts_reject_review]
    rfl

/-- One step of the run loop keeps the target size. -/
theorem targetSize_finalizeAttempt (outcome : ℕ → Bool) (mkR : ℕ → Review)
    (st : GlobalState) :
    (finalizeAttempt outcome mkR st).targetSize = st.targetSize := by
  unfold finalizeAttempt
  split_ifs <;> rfl

/-- A state the loop continues from has at most `target × 10` finalized
attempts. -/
theorem should_continue_total_le (st : GlobalState)
    (h : should_continue st = true) :
    totalAttempts st ≤ st.targetSize * 10 := by
  unfold should_continue at h
  unfold totalAttempts
  by_cases h1 : st.targetSize ≤ st.acceptedReviews.length
  · rw [if_pos h1] at h
    cases h
  · rw [if_neg h1] at h
    by_cases h2 : st.targetSize * 10 <
        st.acceptedReviews.length + st.rejectedReviews.length
    · rw [if_pos h2] at h
      cases h
    · omega

/-- Once the safety valve is past, `should_continue` is false. -/
theorem should_continue_false_of_total (st : GlobalState)
    (h : st.targetSize * 10 < totalAttempts st) :
    should_continue st = false := by
  unfold totalAttempts at h
  unfold should_continue
  by_cases h1 : st.targetSize ≤ st.acceptedReviews.length
  · rw [if_pos h1]
  · rw [if_neg h1, if_pos h]

/-- With enough fuel the run loop always reaches a state the continuation
check finishes at. -/
theorem runLoop_finishes (outcome : ℕ → Bool) (mkR : ℕ → Review) (T : ℕ) :
    ∀ fuel st, st.targetSize = T → T * 10 + 2 ≤ totalAttempts st + fuel →
      should_continue (runLoop outcome mkR fuel st) = false := by
  intro fuel
  induction fuel with
  | zero =>
    intro st hT hle
    exact should_continue_false_of_total st (by omega)
  | succ fuel ih =>
    intro st hT hle
    unfold runLoop
    by_cases hc : should_continue st = true
    · rw [if_pos hc]
      refine ih _ ?_ ?_
      · rw [targetSize_finalizeAttempt]
        exact hT
      · rw [totalAttempts_finalizeAttempt]
        omega
    · rw [if_neg hc]
      simpa using hc

/-- The run loop never pushes the number of finalized attempts past
`target × 10 + 1`. -/
theorem runLoop_total_le (outcome : ℕ → Bool) (mkR : ℕ → Review) (T : ℕ) :
    ∀ fuel st, st.targetSize = T → totalAttempts st ≤ T * 10 + 1 →
      totalAttempts (runLoop outcome mkR fuel st) ≤ T * 10 + 1 := by
  intro fuel
  induction fuel with
  | zero => intro st _ hle; exact hle
  | succ fuel ih =>
    intro st hT hle
    unfold runLoop
    by_cases hc : should_continue st = true
    · rw [if_pos hc]
      have hcur : totalAttempts st ≤ T * 10 := by
        have := should_continue_total_le st hc
        omega
      refine ih _ ?_ ?_
      · rw [targetSize_finalizeAttempt]
        exact hT
      · rw [totalAttempts_finalizeAttempt]
        omega
    · rw [if_neg hc]
      exact hle

/-- C3: the continuation check finishes iff the accepted count has reached the
target or the finalized total strictly exceeds `target × 10`; consequently a
run started from empty accumulators always reaches the finish decision within
`target × 10 + 2` loop steps, having finalized at most `target × 10 + 1`
attempts. (The safety-valve branch returns the finish decision normally,
printing a warning — it raises no error.) -/
theorem C3_continuation_and_termination :
    (∀ st : GlobalState, should_continue st = false ↔
      (st.targetSize ≤ st.acceptedReviews.length ∨
       st.targetSize * 10 < totalAttempts st)) ∧
    (∀ (outcome : ℕ → Bool) (mkR : ℕ → Review) (cfg : DomainConfig)
       (target : ℕ) (cr : Review) (fb : Option String),
      should_continue (runLoop outcome mkR (target * 10 + 2)
        ⟨[], [], [], cr, cfg, target, fb⟩) = false ∧
      totalAttempts (runLoop outcome mkR (target * 10 + 2)
        ⟨[], [], [], cr, cfg, target, fb⟩) ≤ target * 10 + 1) := by
  constructor
  · intro st
    unfold should_continue totalAttempts
    by_cases h1 : st.targetSize ≤ st.acceptedReviews.length
    · rw [if_pos h1]
      simp only [true_iff]
      exact Or.inl h1
    · rw [if_neg h1]
      by_cases h2 : st.targetSize * 10 <
          st.acceptedReviews.length + st.rejectedReviews.length
      · rw [if_pos h2]
        simp only [true_iff]
        exact Or.inr h2
      · rw [if_neg h2]
        simp only [Bool.true_eq_false, false_iff]
        push_neg
        exact ⟨by omega, by omega⟩
  · intro outcome mkR cfg target cr fb
    constructor
    · exact runLoop_finishes outcome mkR target (target * 10 + 2)
        ⟨[], [], [], cr, cfg, target, fb⟩ rfl (by simp [totalAttempts])
    · exact runLoop_total_le outcome mkR target (target * 10 + 2)
        ⟨[], [], [], cr, cfg, target, fb⟩ rfl (by simp [totalAttempts])

/-- Witness for C3: the safety valve fires with `target_size = 1` when every
attempt is rejected — the run finishes with 11 finalized attempts and fewer
accepted reviews than the target. -/
theorem C3_witness :
    should_continue (runLoop (fun _ => false) (fun _ => exReview none) 12
      ⟨[], [], [], exReview none, exCfg, 1, none⟩) = false ∧
    totalAttempts (runLoop (fun _ => false) (fun _ => exReview none) 12
      ⟨[], [], [], exReview none, exCfg, 1, none⟩) ≤ 11 :=
  (C3_continuation_and_termination.2 (fun _ => false) (fun _ => exReview none)
    exCfg 1 (exReview none) none)



/-! ## C6: unparseable judge responses -/

/-- What `check_realism` records for a non-empty draft when the judge response
is non-blank but matches none of the three patterns (the parser default), and
when the judge call raises (the heuristic). -/
theorem check_realism_unparseable (cfg : DomainConfig) (review : Review)
    (text resp : String) (ht : review.reviewText = some text)
    (hne : text.isEmpty = false)
    (h1 : searchScorePattern resp.toList = none)
    (h2 : searchDecimalPattern resp.toList = none)
    (h3 : searchDigitPattern resp.toList = none)
    (h4 : (pyTrim resp.toList).isEmpty = false) :
    (check_realism (.response (some resp)) cfg review).qualityScores.realism =
      some ⟨1 / 2, decide (cfg.guardrails.realismScoreThreshold ≤ 1 / 2)⟩ ∧
    (check_realism .failure cfg review).qualityScores.realism =
      some ⟨heuristic_realism_score text cfg.domain,
        decide (cfg.guardrails.realismScoreThreshold ≤
          heuristic_realism_score text cfg.domain)⟩ := by
  have hne' : textFalsy (some text) = false := hne
  have h4' : pyTrim resp.toList ≠ [] := by simpa using h4
  have h4'' : pyTrim resp.data ≠ [] := h4'
  constructor
  · have hparse : parse_realism_score resp = .ok (1 / 2) := by
      unfold parse_realism_score
      rw [h1, h2, h3]
    simp [check_realism, ht, hne', h4', h4'', hparse, Review.withRealism,
      textFalsy, hne]
  · simp [check_realism, ht, hne', Review.withRealism, textFalsy, hne]

/-- The heuristic score of the concrete draft `exDraft` is 1: 13 words in
range, a domain keyword present, not shouted. -/
theorem exDraft_heuristic_val :
    heuristic_realism_score exDraft exCfg.domain = 1 := by
  have h0 : (exDraft.isEmpty || (pyTrim exDraft.toList).isEmpty) = false := by
    decide
  have hwc : (pyWords exDraft).length = 13 := by decide
  have hterm : domainTerms.any (fun t => pyIn t (pyLower exDraft)) = true := by
    decide
  have hup : pyIsUpper exDraft = false := by decide
  have hex : (exDraft.toList.filter (fun c => c == '!')).length = 0 := by decide
  have hex' : (List.filter (fun c => c == '!') exDraft.data).length = 0 := hex
  unfold heuristic_realism_score
  rw [h0]
  norm_num [hwc, hterm, hup, hex, hex']

/-- C6 counterexample: for the non-empty judge response `exUnparseable` no
parsing pattern matches, yet the recorded realism score is the parser's fixed
default 0.5 and not the heuristic score of the draft (which is 1 here): the
heuristic fallback path is not taken for unparseable non-empty responses. -/
theorem C6_counterexample :
    searchScorePattern exUnparseable.toList = none ∧
    searchDecimalPattern exUnparseable.toList = none ∧
    searchDigitPattern exUnparseable.toList = none ∧
    (pyTrim exUnparseable.toList).isEmpty = false ∧
    (check_realism (.response (some exUnparseable)) exCfg
        (exReview (some exDraft))).qualityScores.realism = some ⟨1 / 2, false⟩ ∧
    heuristic_realism_score exDraft exCfg.domain = 1 ∧
    (1 : ℚ) / 2 ≠ 1 := by
  refine ⟨by decide, by decide, by decide, by decide, ?_,
    exDraft_heuristic_val, by norm_num⟩
  rw [(check_realism_unparseable exCfg (exReview (some exDraft)) exDraft
    exUnparseable rfl (by decide) (by decide) (by decide) (by decide)
    (by decide)).1]
  have hpass : decide (exCfg.guardrails.realismScoreThreshold ≤ (1 : ℚ) / 2) =
      false := by
    apply decide_eq_false
    have hthr : exCfg.guardrails.realismScoreThreshold = (0.7 : ℚ) := rfl
    rw [hthr]
    norm_num
  rw [hpass]

/-- C6 (amended): a non-empty judge response matching none of the three
patterns yields the parser's fixed default score 0.5 — the heuristic is not
consulted; the heuristic is used when the judge call fails (and likewise for
empty or blank responses). -/
theorem C6_unparseable_default (cfg : DomainConfig) (review : Review)
    (text resp : String) (ht : review.reviewText = some text)
    (hne : text.isEmpty = false)
    (h1 : searchScorePattern resp.toList = none)
    (h2 : searchDecimalPattern resp.toList = none)
    (h3 : searchDigitPattern resp.toList = none)
    (h4 : (pyTrim resp.toList).isEmpty = false) :
    (check_realism (.response (some resp)) cfg review).qualityScores.realism =
      some ⟨1 / 2, decide (cfg.guardrails.realismScoreThreshold ≤ 1 / 2)⟩ ∧
    (check_realism .failure cfg review).qualityScores.realism =
      some ⟨heuristic_realism_score text cfg.domain,
        decide (cfg.guardrails.realismScoreThreshold ≤
          heuristic_realism_score text cfg.domain)⟩ :=
  check_realism_unparseable cfg review text resp ht hne h1 h2 h3 h4

/-- Witness for the amended C6 at the concrete unparseable response. -/
theorem C6_witness :
    (check_realism (.response (some exUnparseable)) exCfg
        (exReview (some exDraft))).qualityScores.realism =
      some ⟨1 / 2, decide (exCfg.guardrails.realismScoreThreshold ≤ 1 / 2)⟩ ∧
    (check_realism .failure exCfg
        (exReview (some exDraft))).qualityScores.realism =
      some ⟨heuristic_realism_score exDraft exCfg.domain,
        decide (exCfg.guardrails.realismScoreThreshold ≤
          heuristic_realism_score exDraft exCfg.domain)⟩ :=
  C6_unparseable_default exCfg (exReview (some exDraft)) exDraft exUnparseable
    rfl (by decide) (by decide) (by decide) (by decide) (by decide)

/-! ## C7: judge-model selection -/

/-- A model list with a gpt-named openai model before a groq model. -/
def exModelsGptFirst : List ModelConfig :=
  [⟨"openai", "gpt-4o-mini", 0.7, none⟩,
   ⟨"groq", "llama-3.3-70b-versatile", 0.7, none⟩]

/-- C7 counterexample: the configuration `exModelsGptFirst` contains a groq
model, yet the selection loop picks the earlier gpt-named openai model — the
groq preference does not override list order. -/
theorem C7_counterexample :
    exModelsGptFirst.any (fun m => m.provider == "groq") = true ∧
    (chooseJudgeModel exModelsGptFirst).map ModelConfig.provider =
      some "openai" ∧
    (chooseJudgeModel exModelsGptFirst).map ModelConfig.model =
      some "gpt-4o-mini" ∧
    (some "openai" : Option String) ≠ some "groq" := by
  refine ⟨by decide, by decide, by decide, by decide⟩

/-- The selection loop is exactly a first-match search for the combined
predicate "groq provider, or openai provider with a gpt-named model". -/
theorem selectValidationModel_eq_find (ms : List ModelConfig) :
    selectValidationModel ms = ms.find? judgePreferred := by
  induction ms with
  | nil => rfl
  | cons m rest ih =>
    unfold selectValidationModel
    cases h1 : (m.provider == "groq")
    · cases h2 : (m.provider == "openai" && pyIn "gpt" (pyLower m.model))
      · rw [if_neg (by simp [h1]), if_neg (by simp [h2]), ih,
          List.find?_cons_of_neg]
        simp [judgePreferred, h1, h2]
      · rw [if_neg (by simp [h1]), if_pos (by simp [h2]),
          List.find?_cons_of_pos]
        simp [judgePreferred, h1, h2]
    · rw [if_pos (by simp [h1]), List.find?_cons_of_pos]
      simp [judgePreferred, h1]

/-- C7 (amended): the judge is the first model in configuration order that is
either a groq model or a gpt-named openai model — whichever kind comes first —
and the first configured model when no model qualifies. -/
theorem C7_judge_selection (models : List ModelConfig) :
    chooseJudgeModel models =
      match models.find? judgePreferred with
      | some m => some m
      | none => models.head? := by
  unfold chooseJudgeModel
  rw [selectValidationModel_eq_find]

/-! ## C8: drafting failure still flows through the scorers -/

/-- A state whose drafting just failed (`None` provider response). -/
def exFailedState : GlobalState :=
  { acceptedReviews := []
    rejectedReviews := []
    metricsPerModel := []
    currentReview := generate_review (.returned none) (exReview (some "draft"))
    config := exCfg
    targetSize := 10
    feedback := none }

/-- C8 counterexample: in a state whose drafting failed, the successor of the
`generate` node is still the diversity scorer, not the aggregator — the graph
has no direct drafting-failure edge to aggregation. -/
theorem C8_counterexample :
    exFailedState.currentReview.reviewText = none ∧
    graphSuccessor exFailedState .generate = some .diversityCheck ∧
    (graphSuccessor exFailedState .generate = some .aggregate → False) := by
  refine ⟨rfl, rfl, ?_⟩
  intro h
  exact absurd h (by decide)

/-- C8 (amended): on a drafting failure the graph still routes
generate → diversity → bias → realism → aggregate; each scorer runs but takes
its empty-text short-circuit, recording failing scores, and the aggregator's
empty-text short-circuit marks the attempt invalid with the fixed reason. -/
theorem C8_failed_draft_pipeline (emb : EmbeddingCapability)
    (sent : SentimentCapability) (judge : JudgeOutcome) (st : GlobalState)
    (cfg : DomainConfig) (accepted : List Review) (review : Review)
    (h : review.reviewText = none) :
    graphSuccessor st .generate = some .diversityCheck ∧
    graphSuccessor st .diversityCheck = some .biasCheck ∧
    graphSuccessor st .biasCheck = some .realismCheck ∧
    graphSuccessor st .realismCheck = some .aggregate ∧
    (scoringPipeline emb sent judge cfg accepted review).qualityScores.diversity =
      some ⟨1, 1, false⟩ ∧
    (scoringPipeline emb sent judge cfg accepted review).qualityScores.bias =
      some ⟨false, none, 0, false⟩ ∧
    (scoringPipeline emb sent judge cfg accepted review).qualityScores.realism =
      some ⟨0, false⟩ ∧
    (scoringPipeline emb sent judge cfg accepted review).isValid = false ∧
    (scoringPipeline emb sent judge cfg accepted review).rejectionReason =
      some emptyTextReason := by
  have hfalsy : textFalsy review.reviewText = true := by
    rw [h]
    rfl
  refine ⟨rfl, rfl, rfl, rfl, ?_, ?_, ?_, ?_, ?_⟩ <;>
    simp [scoringPipeline, check_diversity, check_bias, check_realism,
      aggregate_guardrails, hfalsy, h, Review.withDiversity, Review.withBias,
      Review.withRealism, textFalsy, blankText]

/-- Witness for the amended C8 at the concrete failed-drafting state. -/
theorem C8_witness :
    (scoringPipeline exEmb exSent .failure exCfg []
        exFailedState.currentReview).isValid = false ∧
    (scoringPipeline exEmb exSent .failure exCfg []
        exFailedState.currentReview).rejectionReason = some emptyTextReason :=
  ⟨(C8_failed_draft_pipeline exEmb exSent .failure exFailedState exCfg []
      exFailedState.currentReview rfl).2.2.2.2.2.2.2.1,
   (C8_failed_draft_pipeline exEmb exSent .failure exFailedState exCfg []
      exFailedState.currentReview rfl).2.2.2.2.2.2.2.2⟩

end SynthReview
